import Mathlib

/-!
Verification of the RDP-Linux remote connection host (`src/start.py`)
against its natural-language specification.

The server is shallowly embedded: Python dict values appearing in protocol
messages become the `JValue` type, JSON objects become association lists,
the mutable server attributes (`auth_tokens`, `clients`, `running`, ...)
become an explicit `ServerState` record, and the external collaborators
(hash function, random source, process spawner, clock, host info) become an
explicit `Env` record.  Code that may raise a Python exception is embedded
in `Except String`.
-/

namespace RDPHost

/-- A Python value as it can appear in a decoded JSON protocol message:
strings, numbers, booleans, `None`, and the two container kinds `arr`
(JSON array / Python list) and `obj` (JSON object / Python dict).  The
containers are unhashable in Python: using one as a dict key or in a
`... in dict` test raises `TypeError`.  `null` also stands for the `None`
returned by `dict.get` on a missing key. -/
inductive JValue where
  | str (s : String)
  | num (n : Int)
  | bool (b : Bool)
  | null
  | arr (elems : List JValue)
  | obj (fields : List (String × JValue))

/-- The comparisons the server performs are all of the form
`v == "literal"`; in Python such a comparison never raises and a
non-string value is simply unequal to a string. -/
def decEqStrRight : (v : JValue) → (s : String) → Decidable (v = JValue.str s)
  | .str t, s =>
    if h : t = s then isTrue (by rw [h])
    else isFalse (fun hh => h (JValue.str.inj hh))
  | .num _, _ => isFalse (fun hh => JValue.noConfusion hh)
  | .bool _, _ => isFalse (fun hh => JValue.noConfusion hh)
  | .null, _ => isFalse (fun hh => JValue.noConfusion hh)
  | .arr _, _ => isFalse (fun hh => JValue.noConfusion hh)
  | .obj _, _ => isFalse (fun hh => JValue.noConfusion hh)

instance (v : JValue) (s : String) : Decidable (v = JValue.str s) :=
  decEqStrRight v s

/-- A decoded JSON object: an ordered association list, as a Python dict. -/
def Obj : Type := List (String × JValue)

/-- `message.get(key)`: the value stored at `key`, or `None` when absent. -/
def objGet (o : Obj) (k : String) : JValue :=
  match o.lookup k with
  | some v => v
  | none => .null

/-- Python `bool(v)` truthiness: empty strings, zero, `False`, `None`,
and empty containers are falsy. -/
def pyTruthy : JValue → Bool
  | .str s => !s.isEmpty
  | .num n => n != 0
  | .bool b => b
  | .null => false
  | .arr l => !l.isEmpty
  | .obj f => !f.isEmpty

mutual

/-- Python `repr(v)` (up to string-escaping details, which the protocol
never exercises): the element form used inside containers. -/
def pyRepr : JValue → String
  | .str s => "'" ++ s ++ "'"
  | .num n => toString n
  | .bool true => "True"
  | .bool false => "False"
  | .null => "None"
  | .arr l => "[" ++ pyReprSeq l ++ "]"
  | .obj f => "\x7b" ++ pyReprFields f ++ "\x7d"

/-- The comma-separated reprs of a Python list's elements. -/
def pyReprSeq : List JValue → String
  | [] => ""
  | [v] => pyRepr v
  | v :: vs => pyRepr v ++ ", " ++ pyReprSeq vs

/-- The comma-separated `'key': value` reprs of a Python dict's items. -/
def pyReprFields : List (String × JValue) → String
  | [] => ""
  | [(k, v)] => "'" ++ k ++ "': " ++ pyRepr v
  | (k, v) :: fs => "'" ++ k ++ "': " ++ pyRepr v ++ ", " ++ pyReprFields fs

end

/-- Python `str(v)` (used by the unknown-message-type error text, an
f-string in the source): identical to `repr` except on strings. -/
def pyStr : JValue → String
  | .str s => s
  | v => pyRepr v

/-- Is the value a Python `str`? (`_hash_password` calls `.encode()`, which
only exists on `str`.) -/
def isStr : JValue → Bool
  | .str _ => true
  | _ => false

/-- Python dict assignment `m[k] = v`: overwrite in place when the key
exists, otherwise append (dicts preserve insertion order). -/
def dictInsert {β : Type} (m : List (String × β)) (k : String) (v : β) :
    List (String × β) :=
  if m.any (fun p => p.1 = k) then
    m.map (fun p => if p.1 = k then (k, v) else p)
  else
    m ++ [(k, v)]

/-- The outcome of `subprocess.Popen` + `communicate(timeout=30)` for one
spawn attempt, as seen by `_execute_command`:
* `failure msg`   — `Popen` itself raised; `msg` is `str(e)`;
* `completed o e rc` — the process finished within the 30-second deadline
  with stdout `o`, stderr `e` and return code `rc`;
* `timedOut o e`  — `communicate(timeout=30)` raised `TimeoutExpired`; `o`
  and `e` are the buffers the second `communicate()` call returns after
  `process.kill()` (the partial output of the killed process). -/
inductive SpawnOutcome where
  | failure (msg : String)
  | completed (stdout stderr : String) (returncode : Int)
  | timedOut (stdout stderr : String)
deriving Repr, DecidableEq

/-- A command result: the `(stdout, stderr, returncode)` tuple returned by
`_execute_command`. -/
structure CommandResult where
  stdout : String
  stderr : String
  returncode : Int
deriving Repr, DecidableEq

/-- `_execute_command` (start.py lines 74-92), given the outcome of the
spawn attempt.  On timeout the code kills the process, calls
`communicate()` again and returns that stdout with the literal stderr
`"Command timed out"` and return code 1; on a spawn failure it returns
normally with a diagnostic stderr. -/
def executeCommand : SpawnOutcome → CommandResult
  | .failure msg => ⟨"", "Error executing command: " ++ msg, 1⟩
  | .completed out err rc => ⟨out, err, rc⟩
  | .timedOut out _err => ⟨out, "Command timed out", 1⟩

/-- The external collaborators the server consults, made explicit:
`hash` is the one-way digest of `_hash_password` (SHA-256 in the source),
`freshTokens` enumerates the successive outputs of the random source used
by `_generate_token`, `exec` is the process-spawning facility's reaction to
each spawn request, and the remaining fields are the host-information and
clock readings used by the `system_info` response. -/
structure Env where
  hash : String → String
  freshTokens : Nat → String
  exec : JValue → SpawnOutcome
  hostname : String
  platform : String
  pythonVersion : String
  currentTime : String

/-- One entry of the live-connection registry `self.clients`: the socket
handle (modelled by whether it is open) and the `authenticated` flag.  The
`address` and `connected_at` fields carry no behaviour and are omitted. -/
structure ClientEntry where
  socketOpen : Bool
  authenticated : Bool
deriving Repr, DecidableEq

/-- The mutable attributes of `RemoteConnectionHost`: `running`, the
server socket (modelled by whether it is open), the live-connection
registry `clients`, the session table `auth_tokens`, the credential store
`credentials`, plus a counter `rand` selecting the next output of the
random source. -/
structure ServerState where
  running : Bool
  serverSocketOpen : Bool
  clients : List (String × ClientEntry)
  authTokens : List (String × String)
  credentials : List (String × String)
  rand : Nat
deriving Repr, DecidableEq

/-- `__init__` (start.py lines 35-47): no socket, not running, empty
registry and session table, and the two default credentials hashed with
`_hash_password`. -/
def initState (hash : String → String) : ServerState :=
  { running := false
    serverSocketOpen := false
    clients := []
    authTokens := []
    credentials := [("admin", hash "admin123"), ("user", hash "user123")]
    rand := 0 }

/-- `_hash_password` (start.py lines 51-53) applied to an arbitrary
message value: `password.encode()` raises `AttributeError` unless the
value is a `str`. -/
def hashPasswordV (hash : String → String) : JValue → Except String String
  | .str s => .ok (hash s)
  | v => .error ("AttributeError: " ++ pyStr v ++ " has no attribute encode")

/-- `_validate_token` (start.py lines 70-72): `token in self.auth_tokens`.
The table's keys are strings, so a hashable non-string value (number,
boolean, `None`) never validates; an unhashable value (list or dict)
makes the `in` test itself raise `TypeError`. -/
def validateToken (tokens : List (String × String)) :
    JValue → Except String Bool
  | .str t => .ok (tokens.any (fun p => p.1 = t))
  | .arr _ => .error "TypeError: unhashable type: list"
  | .obj _ => .error "TypeError: unhashable type: dict"
  | _ => .ok false

/-- `_authenticate` (start.py lines 59-68).  It first hashes the password
(which raises on a non-string), then checks `username in self.credentials
and self.credentials[username] == hashed_password` (the `in` test raises
`TypeError` on an unhashable username; other non-string usernames are
simply not registered); on success it draws a token from the random
source and inserts it into `auth_tokens` with a plain dict assignment —
no collision check. -/
def authenticate (env : Env) (st : ServerState) (username password : JValue) :
    Except String (Option String × ServerState) :=
  match hashPasswordV env.hash password with
  | .error e => .error e
  | .ok hashed =>
    match username with
    | .str u =>
      match st.credentials.lookup u with
      | some stored =>
        if stored = hashed then
          let token := env.freshTokens st.rand
          .ok (some token,
            { st with
              authTokens := dictInsert st.authTokens token u
              rand := st.rand + 1 })
        else
          .ok (none, st)
      | none => .ok (none, st)
    | .arr _ => .error "TypeError: unhashable type: list"
    | .obj _ => .error "TypeError: unhashable type: dict"
    | _ => .ok (none, st)

/-- `_handle_client_message` (start.py lines 94-160).  Returns the
response object, the new server state, and the list of commands passed to
`_execute_command` during this call; an uncaught Python exception is the
`.error` case. -/
def handleClientMessage (env : Env) (st : ServerState) (message : Obj) :
    Except String (Obj × ServerState × List JValue) :=
  let msgType := objGet message "type"
  if msgType = .str "auth" then
    let username := objGet message "username"
    let password := objGet message "password"
    match authenticate env st username password with
    | .error e => .error e
    | .ok (some token, st1) =>
      .ok ([("type", .str "auth_response"),
            ("success", .bool true),
            ("token", .str token),
            ("message", .str "Authentication successful")], st1, [])
    | .ok (none, st1) =>
      .ok ([("type", .str "auth_response"),
            ("success", .bool false),
            ("message", .str "Authentication failed")], st1, [])
  else if msgType = .str "command" then
    let token := objGet message "token"
    match validateToken st.authTokens token with
    | .error e => .error e
    | .ok valid =>
      if !valid then
        .ok ([("type", .str "error"),
              ("message", .str "Invalid or expired token")], st, [])
      else
        let command := objGet message "command"
        if !pyTruthy command then
          .ok ([("type", .str "error"),
                ("message", .str "No command provided")], st, [])
        else
          let r := executeCommand (env.exec command)
          .ok ([("type", .str "command_response"),
                ("stdout", .str r.stdout),
                ("stderr", .str r.stderr),
                ("returncode", .num r.returncode)], st, [command])
  else if msgType = .str "system_info" then
    let token := objGet message "token"
    match validateToken st.authTokens token with
    | .error e => .error e
    | .ok valid =>
      if !valid then
        .ok ([("type", .str "error"),
              ("message", .str "Invalid or expired token")], st, [])
      else
        .ok ([("type", .str "system_info_response"),
              ("hostname", .str env.hostname),
              ("platform", .str env.platform),
              ("python_version", .str env.pythonVersion),
              ("current_time", .str env.currentTime)], st, [])
  else
    .ok ([("type", .str "error"),
          ("message", .str ("Unknown message type: " ++ pyStr msgType))], st, [])

/-- One frame received by the worker loop, classified by how
`data.decode()` followed by `json.loads(...)` behaves on its bytes:
* `valid m`      — the bytes decode as UTF-8 and parse as a JSON object;
* `invalid raw`  — the bytes decode as UTF-8 text `raw` but `json.loads`
  raises `JSONDecodeError`;
* `undecodable`  — `data.decode()` itself raises `UnicodeDecodeError`
  (which is not a `JSONDecodeError`);
* `nonObj v`     — the bytes parse as the JSON value `v` that is not an
  object, so `message.get("type")` raises `AttributeError`. -/
inductive Frame where
  | valid (m : Obj)
  | invalid (raw : String)
  | undecodable
  | nonObj (v : JValue)

/-- The observable result of a worker processing a sequence of frames:
the response frames it sent, the server state it left behind, every
command it spawned, and whether it aborted with an uncaught exception
(in which case the source's outer `except`/`finally` closes the
connection and drops the remaining frames). -/
structure WorkerRun where
  responses : List Obj
  finalState : ServerState
  executed : List JValue
  crashed : Bool

/-- The receive loop of `_handle_client` (start.py lines 183-203).  The
inner `try` covers `data.decode()`, `json.loads`, the handler call and
the send, but its `except` clause catches only `json.JSONDecodeError`:
* a frame that decodes but fails JSON parsing is answered with exactly
  one `Invalid JSON format` error frame and the loop continues;
* a frame whose bytes do not decode as UTF-8 raises `UnicodeDecodeError`,
  which escapes to the outer handler: no error frame is sent, the
  remaining frames are dropped and the `finally` block closes the socket;
* a frame parsing to a non-object raises `AttributeError` at
  `message.get`, with the same fatal outcome;
* a decoded object is passed to `_handle_client_message`; if the handler
  raises, the loop is likewise abandoned and the socket closed. -/
def processFrames (env : Env) (st : ServerState) : List Frame → WorkerRun
  | [] => ⟨[], st, [], false⟩
  | .invalid _ :: fs =>
    let r := processFrames env st fs
    ⟨[("type", .str "error"), ("message", .str "Invalid JSON format")] ::
        r.responses,
      r.finalState, r.executed, r.crashed⟩
  | .undecodable :: _ => ⟨[], st, [], true⟩
  | .nonObj _ :: _ => ⟨[], st, [], true⟩
  | .valid m :: fs =>
    match handleClientMessage env st m with
    | .ok (resp, st1, cmds) =>
      let r := processFrames env st1 fs
      ⟨resp :: r.responses, r.finalState, cmds ++ r.executed, r.crashed⟩
    | .error _ => ⟨[], st, [], true⟩

/-- Registration of a new connection in `_handle_client` (start.py lines
167-172): the registry entry starts with an open socket and
`authenticated = False`.  No later statement in the source ever assigns
to this flag. -/
def registerClient (st : ServerState) (clientId : String) : ServerState :=
  { st with clients := dictInsert st.clients clientId ⟨true, false⟩ }

/-- `stop` (start.py lines 247-263): clears `running`, closes every
registered client socket and the server socket.  It does not touch
`auth_tokens`. -/
def stop (st : ServerState) : ServerState :=
  { st with
    running := false
    clients := st.clients.map (fun p => (p.1, { p.2 with socketOpen := false }))
    serverSocketOpen := false }

/-! ### Concrete instances used for witnesses and counterexamples -/

/-- A concrete injective stand-in for the SHA-256 digest. -/
def cHash (s : String) : String := s ++ "#"

/-- A concrete environment: deterministic token stream `tok0, tok1, ...`,
a spawner whose processes print `hi` and exit 0, fixed host data. -/
def cEnv : Env :=
  { hash := cHash
    freshTokens := fun n => "tok" ++ toString n
    exec := fun _ => .completed "hi\n" "" 0
    hostname := "testhost"
    platform := "linux"
    pythonVersion := "3.12.0"
    currentTime := "2026-01-01T00:00:00" }

/-- The canonical successful auth request of the spec scenario. -/
def authMsgC : Obj :=
  [("type", .str "auth"), ("username", .str "admin"),
   ("password", .str "admin123")]

/-! ### Helper lemmas about `dictInsert` -/

/-- After a dict assignment the key is present (in either branch of
`dictInsert`). -/
lemma any_dictInsert {β : Type} (m : List (String × β)) (k : String) (v : β) :
    (dictInsert m k v).any (fun p => p.1 = k) = true := by
  unfold dictInsert
  split
  · next h =>
    rw [List.any_map]
    rw [List.any_eq_true] at h ⊢
    obtain ⟨x, hx, hxk⟩ := h
    refine ⟨x, hx, ?_⟩
    simp only [Function.comp_apply]
    simp_all
  · next h =>
    simp [List.any_append]

/-- After a dict assignment, looking the key up yields the assigned
value. -/
lemma lookup_dictInsert {β : Type} (m : List (String × β)) (k : String)
    (v : β) : List.lookup k (dictInsert m k v) = some v := by
  unfold dictInsert
  split
  · next h =>
    induction m with
    | nil => simp at h
    | cons a as ih =>
      obtain ⟨a1, b1⟩ := a
      simp only [List.any_cons, Bool.or_eq_true, decide_eq_true_eq] at h
      rw [List.map_cons]
      by_cases hk : a1 = k
      · simp only [if_pos hk]
        simp [List.lookup]
      · have h2 : as.any (fun p => p.1 = k) = true := by
          rcases h with h | h
          · exact absurd h hk
          · exact h
        simp only [if_neg hk]
        simp only [List.lookup, show (k == a1) = false by
          simp [Ne.symm hk]]
        exact ih h2
  · next h =>
    induction m with
    | nil => simp [List.lookup]
    | cons a as ih =>
      obtain ⟨a1, b1⟩ := a
      simp only [List.any_cons, Bool.or_eq_true, decide_eq_true_eq,
        not_or] at h
      obtain ⟨h1, h2⟩ := h
      simp only [List.cons_append, List.lookup, show (k == a1) = false by
        simp [Ne.symm h1]]
      exact ih (by simpa using h2)

/-! ### The message handler never touches the connection registry -/

/-- `_authenticate` only writes `auth_tokens`; the registry `clients` is
untouched. -/
lemma authenticate_clients {env : Env} {st : ServerState} {u p : JValue}
    {o : Option String} {st1 : ServerState}
    (h : authenticate env st u p = .ok (o, st1)) :
    st1.clients = st.clients := by
  unfold authenticate at h
  repeat' split at h
  all_goals first
    | exact Except.noConfusion h
    | (injection h with h2; injection h2 with h3 h4; subst h4; rfl)

/-- `_handle_client_message` only writes `auth_tokens` (through
`_authenticate`); the registry `clients` is untouched. -/
lemma handleClientMessage_clients {env : Env} {st : ServerState} {m : Obj}
    {r : Obj} {st1 : ServerState} {cmds : List JValue}
    (h : handleClientMessage env st m = .ok (r, st1, cmds)) :
    st1.clients = st.clients := by
  simp only [handleClientMessage] at h
  repeat' split at h
  all_goals first
    | exact Except.noConfusion h
    | (injection h with h2; injection h2 with h3 h4;
       injection h4 with h5 h6; subst h5; try rfl)
  all_goals rename_i heq
  all_goals exact authenticate_clients heq

/-- The worker loop never touches the connection registry. -/
lemma processFrames_clients (env : Env) (st : ServerState)
    (fs : List Frame) :
    (processFrames env st fs).finalState.clients = st.clients := by
  induction fs generalizing st with
  | nil => rfl
  | cons f fs ih =>
    cases f with
    | invalid raw =>
      simpa [processFrames] using ih st
    | undecodable => rfl
    | nonObj v => rfl
    | valid m =>
      simp only [processFrames]
      cases hm : handleClientMessage env st m with
      | ok r =>
        obtain ⟨resp, st1, cmds⟩ := r
        simp only []
        rw [ih st1]
        exact handleClientMessage_clients hm
      | error e => rfl

/-! ### C1 — command timeout result -/

/-- C1 (counterexample): the claim says a timed-out command yields empty
stdout with any buffered partial output discarded.  In the source the
timeout branch returns the stdout of the post-kill `communicate()` call,
i.e. the partial output of the killed process: for a process killed with
`"leftover"` buffered, the result's stdout is `"leftover"`, not empty. -/
theorem c1_timeout_counterexample :
    executeCommand (.timedOut "leftover" "junk") =
      ⟨"leftover", "Command timed out", 1⟩ ∧
    (executeCommand (.timedOut "leftover" "junk")).stdout ≠ "" :=
  ⟨rfl, by decide⟩

/-- C1 (amended): for every command whose process has not terminated by
the 30-second deadline, `_execute_command` returns exit code 1 and stderr
`"Command timed out"`, while stdout is the partial output recovered by the
post-kill `communicate()` call (the process's own stderr buffer is the
part that is discarded). -/
theorem c1_timeout_result (out err : String) :
    executeCommand (.timedOut out err) = ⟨out, "Command timed out", 1⟩ :=
  rfl

/-! ### C2 — shutdown and the session table -/

/-- A server state with one live session and one registered client, used
to exercise `stop`. -/
def stopSt : ServerState :=
  { running := true
    serverSocketOpen := true
    clients := [("9.9.9.9:1", ⟨true, false⟩)]
    authTokens := [("tokA", "admin")]
    credentials := [("admin", cHash "admin123")]
    rand := 1 }

/-- C2 (counterexample): the claim says the Session Table is empty after
`stop()`.  In the source `stop` closes sockets and clears `running` but
never touches `auth_tokens`: a token live before shutdown still validates
afterwards. -/
theorem c2_stop_counterexample :
    (stop stopSt).authTokens = [("tokA", "admin")] ∧
    validateToken (stop stopSt).authTokens (.str "tokA") = .ok true :=
  ⟨rfl, rfl⟩

/-- C2 (amended): `stop` leaves the Session Table exactly as it was —
every token issued before shutdown still validates in the post-shutdown
state (only `running`, the client sockets and the server socket are
affected). -/
theorem c2_stop_preserves_tokens (st : ServerState) :
    (stop st).authTokens = st.authTokens ∧
    ∀ v : JValue,
      validateToken (stop st).authTokens v = validateToken st.authTokens v :=
  ⟨rfl, fun _ => rfl⟩

/-! ### C7 — spawn failure -/

/-- C7: for every command whose process spawn fails, `_execute_command`
returns normally (the embedding is a total function on the spawn outcome,
mirroring the catch-all `except` in the source) with exit code 1, empty
stdout, and a non-empty diagnostic string in stderr. -/
theorem c7_spawn_failure (msg : String) :
    executeCommand (.failure msg) =
      ⟨"", "Error executing command: " ++ msg, 1⟩ ∧
    ("Error executing command: " ++ msg) ≠ "" := by
  refine ⟨rfl, fun h => ?_⟩
  have hl := congrArg String.length h
  rw [String.length_append] at hl
  have h25 : "Error executing command: ".length = 25 := rfl
  have h0 : ("" : String).length = 0 := rfl
  rw [h25, h0] at hl
  omega

/-- `_authenticate` on a string username and password, with the
hash-and-check steps reduced: the behaviour is decided by the credential
lookup and the digest comparison. -/
lemma authenticate_str (env : Env) (st : ServerState) (u p : String) :
    authenticate env st (.str u) (.str p) =
      match st.credentials.lookup u with
      | some stored =>
        if stored = env.hash p then
          .ok (some (env.freshTokens st.rand),
            { st with
              authTokens :=
                dictInsert st.authTokens (env.freshTokens st.rand) u
              rand := st.rand + 1 })
        else .ok (none, st)
      | none => .ok (none, st) := rfl

/-! ### C5 — token reuse on collision -/

/-- An environment whose random source emits the constant token `"t"`,
exhibiting a collision with a live session. -/
def collideEnv : Env := { cEnv with freshTokens := fun _ => "t" }

/-- A state in which token `"t"` is already a live session of `"user"`. -/
def collideSt : ServerState :=
  { initState cHash with authTokens := [("t", "user")] }

/-- C5 (counterexample): the claim says that for every output of the
random source the returned token is not already a key of the table.  The
source performs no collision check: when the random source emits `"t"`
while `"t"` is a live session of `"user"`, authentication succeeds,
returns the live token `"t"` again and overwrites the existing entry. -/
theorem c5_reuse_counterexample :
    collideSt.authTokens.lookup "t" = some "user" ∧
    authenticate collideEnv collideSt (.str "admin") (.str "admin123") =
      .ok (some "t",
        { collideSt with authTokens := [("t", "admin")], rand := 1 }) :=
  ⟨rfl, rfl⟩

/-- C5 (amended): the token returned by a successful authentication is
the raw output of the random source, with no collision check; whenever
that output is not already a key of the table, the new session is
appended and no existing entry is overwritten. -/
theorem c5_fresh_token_no_overwrite (env : Env) (st : ServerState)
    (u p tok : String) (st1 : ServerState)
    (hauth : authenticate env st (.str u) (.str p) = .ok (some tok, st1))
    (hfresh : st.authTokens.any (fun q => q.1 = tok) = false) :
    tok = env.freshTokens st.rand ∧
    st1.authTokens = st.authTokens ++ [(tok, u)] := by
  rw [authenticate_str] at hauth
  cases hlk : st.credentials.lookup u with
  | none =>
    rw [hlk] at hauth
    simp at hauth
  | some stored =>
    rw [hlk] at hauth
    simp only [] at hauth
    by_cases hstored : stored = env.hash p
    · rw [if_pos hstored] at hauth
      simp only [Except.ok.injEq, Prod.mk.injEq, Option.some.injEq] at hauth
      obtain ⟨htok, hst1⟩ := hauth
      subst htok
      subst hst1
      refine ⟨rfl, ?_⟩
      simp only [dictInsert, hfresh]
      simp
    · rw [if_neg hstored] at hauth
      simp at hauth

/-! ### C6 — malformed frames -/

/-- C6 (counterexample): the claim says every frame that is not parseable
as JSON gets exactly one `Invalid JSON format` error frame with the
connection kept open.  A frame of invalid UTF-8 bytes is not parseable as
JSON, yet `data.decode()` raises `UnicodeDecodeError`, which
`except json.JSONDecodeError` does not catch: the worker sends no
response at all, drops the following valid frame, and the connection is
closed. -/
theorem c6_undecodable_counterexample :
    processFrames cEnv (initState cHash) [.undecodable, .valid authMsgC] =
      ⟨[], initState cHash, [], true⟩ ∧
    (processFrames cEnv (initState cHash)
        [.undecodable, .valid authMsgC]).responses = [] :=
  ⟨rfl, rfl⟩

/-- C6 (amended): a frame whose bytes decode as UTF-8 text but fail JSON
parsing is answered with exactly one `Invalid JSON format` error frame;
the connection is not closed and the remaining frames are processed from
the very same state, so the next valid frame is handled normally.  A
frame whose bytes do not decode as UTF-8 instead crashes the worker: no
error frame is sent and the connection is closed. -/
theorem c6_invalid_json (env : Env) (st : ServerState) (raw : String)
    (fs : List Frame) :
    processFrames env st (.invalid raw :: fs) =
      ⟨[("type", .str "error"), ("message", .str "Invalid JSON format")] ::
          (processFrames env st fs).responses,
        (processFrames env st fs).finalState,
        (processFrames env st fs).executed,
        (processFrames env st fs).crashed⟩ ∧
    processFrames env st (.undecodable :: fs) = ⟨[], st, [], true⟩ :=
  ⟨rfl, rfl⟩

/-! ### C3 — authentication correctness -/

/-- C3: for a username/password pair present in the Credential Store
(username registered with stored hash equal to the hash of the password),
an `auth` request returns `auth_response` with `success = true` and a
token that immediately validates in the updated Session Table; for every
other string pair it returns `success = false`, the response carries no
`token` field, and the Session Table (and whole state) is unchanged. -/
theorem c3_auth_correct (env : Env) (st : ServerState) (m : Obj)
    (u p : String)
    (ht : objGet m "type" = .str "auth")
    (hu : objGet m "username" = .str u)
    (hp : objGet m "password" = .str p) :
    (st.credentials.lookup u = some (env.hash p) →
      handleClientMessage env st m =
        .ok ([("type", .str "auth_response"), ("success", .bool true),
              ("token", .str (env.freshTokens st.rand)),
              ("message", .str "Authentication successful")],
          { st with
            authTokens :=
              dictInsert st.authTokens (env.freshTokens st.rand) u
            rand := st.rand + 1 }, []) ∧
      validateToken (dictInsert st.authTokens (env.freshTokens st.rand) u)
        (.str (env.freshTokens st.rand)) = .ok true) ∧
    (st.credentials.lookup u ≠ some (env.hash p) →
      handleClientMessage env st m =
        .ok ([("type", .str "auth_response"), ("success", .bool false),
              ("message", .str "Authentication failed")], st, []) ∧
      List.lookup "token"
        ([("type", JValue.str "auth_response"), ("success", .bool false),
          ("message", .str "Authentication failed")] :
            List (String × JValue)) = none) := by
  constructor
  · intro hc
    refine ⟨?_,
      congrArg Except.ok
        (any_dictInsert st.authTokens (env.freshTokens st.rand) u)⟩
    simp only [handleClientMessage, ht, hu, hp, authenticate_str, hc]
    simp
  · intro hc
    refine ⟨?_, rfl⟩
    simp only [handleClientMessage, ht, hu, hp, authenticate_str]
    cases hlk : st.credentials.lookup u with
    | none => simp
    | some stored =>
      have hne : stored ≠ env.hash p := fun h => hc (by rw [hlk, h])
      simp [hne]

/-! ### C4 — requests with an invalid token or missing command -/

/-- A `command` request whose token is the unhashable value `[]`. -/
def unhashableTokenMsg : Obj :=
  [("type", .str "command"), ("token", .arr []), ("command", .str "echo hi")]

/-- C4 (counterexample): the claim says every `command` request whose
token is not in the Session Table gets an error response.  A request
with token `[]` — certainly not a key of the table — instead makes
`token in self.auth_tokens` raise `TypeError: unhashable type`; the
handler returns no response at all and the worker closes the connection
(no command is spawned, but no `error` frame is sent either). -/
theorem c4_unhashable_token_counterexample :
    handleClientMessage cEnv (initState cHash) unhashableTokenMsg =
      .error "TypeError: unhashable type: list" ∧
    processFrames cEnv (initState cHash) [.valid unhashableTokenMsg] =
      ⟨[], initState cHash, [], true⟩ :=
  ⟨rfl, rfl⟩

/-- C4 (amended): a `command` or `system_info` request whose token is
absent or is a hashable value not in the Session Table yields an `error`
response, leaves the state unchanged and spawns no command, whatever the
`command` field holds; a `command` request with a valid token but a
missing `command` field also yields an `error` response with nothing
spawned.  A request whose token is unhashable (a JSON array or object)
instead makes `_validate_token` raise, and the handler propagates the
exception without returning any response. -/
theorem c4_invalid_token_or_missing_command (env : Env) (st : ServerState)
    (m : Obj) (e : String) :
    ((objGet m "type" = .str "command" ∨
        objGet m "type" = .str "system_info") →
      validateToken st.authTokens (objGet m "token") = .ok false →
      handleClientMessage env st m =
        .ok ([("type", .str "error"),
              ("message", .str "Invalid or expired token")], st, [])) ∧
    (objGet m "type" = .str "command" →
      validateToken st.authTokens (objGet m "token") = .ok true →
      objGet m "command" = .null →
      handleClientMessage env st m =
        .ok ([("type", .str "error"),
              ("message", .str "No command provided")], st, [])) ∧
    ((objGet m "type" = .str "command" ∨
        objGet m "type" = .str "system_info") →
      validateToken st.authTokens (objGet m "token") = .error e →
      handleClientMessage env st m = .error e) := by
  refine ⟨?_, ?_, ?_⟩
  · rintro (ht | ht) hv <;> simp [handleClientMessage, ht, hv]
  · intro ht hv hcmd
    simp [handleClientMessage, ht, hv, hcmd, pyTruthy]
  · rintro (ht | ht) hv <;> simp [handleClientMessage, ht, hv]

/-! ### C9 — system_info response fields -/

/-- C9 (amended): a `system_info` request with a valid token is answered
with a `system_info_response` whose fields besides the discriminator are
exactly `hostname`, `platform`, `python_version` (not `version`) and
`current_time`. -/
theorem c9_system_info_fields (env : Env) (st : ServerState) (m : Obj)
    (ht : objGet m "type" = .str "system_info")
    (hv : validateToken st.authTokens (objGet m "token") = .ok true) :
    handleClientMessage env st m =
      .ok ([("type", .str "system_info_response"),
            ("hostname", .str env.hostname),
            ("platform", .str env.platform),
            ("python_version", .str env.pythonVersion),
            ("current_time", .str env.currentTime)], st, []) := by
  simp [handleClientMessage, ht, hv]

/-! ### C10 — non-string password crashes the worker -/

/-- `_authenticate` with a non-string password: `_hash_password` calls
`password.encode()`, which raises before the username is even examined. -/
lemma authenticate_nonstr_password (env : Env) (st : ServerState)
    (username v : JValue) (hv : isStr v = false) :
    authenticate env st username v =
      .error ("AttributeError: " ++ pyStr v ++ " has no attribute encode") := by
  cases v <;> simp_all [authenticate, hashPasswordV, isStr]

/-- C10: an `auth` request whose `password` field is absent (hence `None`)
or not a string makes `_handle_client_message` raise instead of returning
a response, and the worker then aborts the connection: no response is
sent for that frame, the remaining frames are dropped, and the
connection is closed (`crashed = true`). -/
theorem c10_bad_password_closes (env : Env) (st : ServerState) (m : Obj)
    (fs : List Frame)
    (ht : objGet m "type" = .str "auth")
    (hp : isStr (objGet m "password") = false) :
    handleClientMessage env st m =
      .error ("AttributeError: " ++ pyStr (objGet m "password") ++
        " has no attribute encode") ∧
    processFrames env st (.valid m :: fs) = ⟨[], st, [], true⟩ := by
  have he : handleClientMessage env st m =
      .error ("AttributeError: " ++ pyStr (objGet m "password") ++
        " has no attribute encode") := by
    simp only [handleClientMessage, ht,
      authenticate_nonstr_password env st (objGet m "username")
        (objGet m "password") hp]
    simp
  refine ⟨he, ?_⟩
  simp only [processFrames]
  rw [he]

/-! ### C8 — the authenticated flag -/

/-- C8 (amended): the registry entry of a connection is created with
`authenticated = False` and no statement ever updates it: after the
worker processes any sequence of frames, the flag is still false — even
when requests on the connection carried valid tokens. -/
theorem c8_flag_stays_false (env : Env) (st : ServerState)
    (clientId : String) (fs : List Frame) :
    List.lookup clientId
        (processFrames env (registerClient st clientId) fs).finalState.clients =
      some ⟨true, false⟩ := by
  rw [processFrames_clients]
  exact lookup_dictInsert st.clients clientId ⟨true, false⟩

/-- The run refuting C8: a fresh connection authenticates as `admin`
(receiving token `tok0`) and then issues a command with that token. -/
def c8Run : WorkerRun :=
  processFrames cEnv (registerClient (initState cHash) "1.2.3.4:50")
    [.valid authMsgC,
     .valid [("type", .str "command"), ("token", .str "tok0"),
             ("command", .str "echo hi")]]

/-- C8 (counterexample): in this run the second processed request carried
token `tok0`, which is valid in the Session Table (the request was
answered with a `command_response`, and the token still validates in the
final state), yet the connection's `authenticated` flag is false — the
claimed iff fails. -/
theorem c8_flag_counterexample :
    c8Run.responses =
      [[("type", .str "auth_response"), ("success", .bool true),
        ("token", .str "tok0"),
        ("message", .str "Authentication successful")],
       [("type", .str "command_response"), ("stdout", .str "hi\n"),
        ("stderr", .str ""), ("returncode", .num 0)]] ∧
    validateToken c8Run.finalState.authTokens (.str "tok0") = .ok true ∧
    List.lookup "1.2.3.4:50" c8Run.finalState.clients =
      some ⟨true, false⟩ :=
  ⟨rfl, rfl, rfl⟩

/-! ### Remaining concrete instances, counterexamples and witnesses -/

/-- A state holding the live session `tokA` of `admin`. -/
def sysSt : ServerState :=
  { initState cHash with authTokens := [("tokA", "admin")] }

/-- A `system_info` request carrying the valid token `tokA`. -/
def sysMsg : Obj := [("type", .str "system_info"), ("token", .str "tokA")]

/-- C9 (counterexample): the claim says the response contains a field
named `version`.  For this concrete valid-token request the response's
fields are `type, hostname, platform, python_version, current_time` — a
lookup of `version` finds nothing (the source emits `python_version`). -/
theorem c9_version_counterexample :
    handleClientMessage cEnv sysSt sysMsg =
      .ok ([("type", .str "system_info_response"),
            ("hostname", .str "testhost"), ("platform", .str "linux"),
            ("python_version", .str "3.12.0"),
            ("current_time", .str "2026-01-01T00:00:00")], sysSt, []) ∧
    List.lookup "version"
      ([("type", JValue.str "system_info_response"),
        ("hostname", .str "testhost"), ("platform", .str "linux"),
        ("python_version", .str "3.12.0"),
        ("current_time", .str "2026-01-01T00:00:00")] :
          List (String × JValue)) = none :=
  ⟨rfl, rfl⟩

/-- Witness for C3 at the default credentials: `admin`/`admin123`
authenticates, gets token `tok0`, and that token validates. -/
theorem c3_auth_correct_witness :
    handleClientMessage cEnv (initState cHash) authMsgC =
      .ok ([("type", .str "auth_response"), ("success", .bool true),
            ("token", .str (cEnv.freshTokens (initState cHash).rand)),
            ("message", .str "Authentication successful")],
        { initState cHash with
          authTokens :=
            dictInsert (initState cHash).authTokens
              (cEnv.freshTokens (initState cHash).rand) "admin"
          rand := (initState cHash).rand + 1 }, []) ∧
    validateToken
      (dictInsert (initState cHash).authTokens
        (cEnv.freshTokens (initState cHash).rand) "admin")
      (.str (cEnv.freshTokens (initState cHash).rand)) = .ok true :=
  (c3_auth_correct cEnv (initState cHash) authMsgC "admin" "admin123"
    rfl rfl rfl).1 rfl

/-- A `command` request with no token field at all. -/
def noTokenCmdMsg : Obj :=
  [("type", .str "command"), ("command", .str "whoami")]

/-- Witness for C4: a `command` request without a token on a fresh server
is answered with the invalid-token error and spawns nothing. -/
theorem c4_invalid_token_witness :
    handleClientMessage cEnv (initState cHash) noTokenCmdMsg =
      .ok ([("type", .str "error"),
            ("message", .str "Invalid or expired token")],
        initState cHash, []) :=
  (c4_invalid_token_or_missing_command cEnv (initState cHash)
    noTokenCmdMsg "e").1 (Or.inl rfl) rfl

/-- Witness for C5 (amended): on a fresh server the random output `tok0`
is not a live token, and the new session is appended without overwriting
anything. -/
theorem c5_fresh_token_witness :
    "tok0" = cEnv.freshTokens (initState cHash).rand ∧
    ({ initState cHash with
        authTokens :=
          dictInsert (initState cHash).authTokens "tok0" "admin"
        rand := (initState cHash).rand + 1 } : ServerState).authTokens =
      (initState cHash).authTokens ++ [("tok0", "admin")] :=
  c5_fresh_token_no_overwrite cEnv (initState cHash) "admin" "admin123"
    "tok0"
    { initState cHash with
      authTokens := dictInsert (initState cHash).authTokens "tok0" "admin"
      rand := (initState cHash).rand + 1 }
    rfl rfl

/-- Witness for C9 (amended): the concrete `system_info` request is
answered with exactly the five fields of the source. -/
theorem c9_system_info_fields_witness :
    handleClientMessage cEnv sysSt sysMsg =
      .ok ([("type", .str "system_info_response"),
            ("hostname", .str cEnv.hostname),
            ("platform", .str cEnv.platform),
            ("python_version", .str cEnv.pythonVersion),
            ("current_time", .str cEnv.currentTime)], sysSt, []) :=
  c9_system_info_fields cEnv sysSt sysMsg rfl rfl

/-- An `auth` request with no `password` field (`message.get` yields
`None`). -/
def badAuthMsg : Obj := [("type", .str "auth"), ("username", .str "admin")]

/-- Witness for C10: the passwordless auth request makes the handler
raise, the worker sends no response, drops the following frame and closes
the connection. -/
theorem c10_bad_password_witness :
    handleClientMessage cEnv (initState cHash) badAuthMsg =
      .error ("AttributeError: " ++ pyStr (objGet badAuthMsg "password") ++
        " has no attribute encode") ∧
    processFrames cEnv (initState cHash)
        [.valid badAuthMsg, .invalid "x"] =
      ⟨[], initState cHash, [], true⟩ :=
  c10_bad_password_closes cEnv (initState cHash) badAuthMsg [.invalid "x"]
    rfl rfl

end RDPHost
